import Mathlib

/-!
Verification development for the TrendMerch repository.

This file gives a shallow embedding, in Lean 4, of the parts of
`design.py` and `printful_uploader.py` that the specification's claims
are about, and proves (or refutes) each claim against that embedding.

Modelling conventions:
* Python strings are modelled either as Lean `String`s (for the error
  messages inspected by the retry classifier) or as lists of code
  points (`List Nat`, for `slugify`, whose regular expressions are
  modelled by their ASCII character classes).
* Python float arithmetic on aspect ratios is modelled by exact
  rational arithmetic (`ℚ`); `int(...)` applied to a non-negative
  value is truncation, i.e. the floor.
* PIL bitmaps are modelled by `Img`: a width, a height, a mode string
  and a total pixel function.  The external resampling kernel
  (`Image.resize` with LANCZOS) and the two paste compositing rules
  (with and without an alpha mask) are opaque external collaborators,
  passed in as function parameters; `resize` returns an image of
  exactly the requested dimensions, as the spec's collaborator
  contract states.
* The remote generation call, the trends provider and the background
  remover are external effects; each is modelled by a parameter giving
  the outcome of the corresponding call (success value or raised
  exception message), and `time.sleep` calls are recorded in a trace
  list of slept durations.
-/

namespace TrendMerch

/-! ## `slugify` (design.py, lines 106-111), over code points -/

/-- Model of `str.lower` on a code point (ASCII range): uppercase
letters `A`-`Z` (65-90) are shifted by 32, everything else is fixed. -/
def pyLower (c : Nat) : Nat :=
  if 65 ≤ c ∧ c ≤ 90 then c + 32 else c

/-- Model of the regex class `\w` (ASCII): digits, letters, `_`. -/
def isWordChar (c : Nat) : Bool :=
  (48 ≤ c && c ≤ 57) || (65 ≤ c && c ≤ 90) || (97 ≤ c && c ≤ 122) || c == 95

/-- Model of the regex class `\s` (ASCII): space, `\t`, `\n`, `\v`, `\f`, `\r`. -/
def isSpaceChar (c : Nat) : Bool :=
  c == 32 || c == 9 || c == 10 || c == 11 || c == 12 || c == 13

/-- The class `[\s_-]` used by `slugify`'s second substitution:
whitespace, underscore (95) or hyphen (45). -/
def isSepChar (c : Nat) : Bool :=
  isSpaceChar c || c == 95 || c == 45

/-- `re.sub(r'[^\w\s-]', '', text)`: keep exactly the word characters,
whitespace and hyphens. -/
def keepWordSpaceHyphen (l : List Nat) : List Nat :=
  l.filter (fun c => isWordChar c || isSpaceChar c || c == 45)

/-- `re.sub(r'[\s_-]+', '_', text)`: each maximal run of separator
characters is replaced by a single underscore.  The boolean flag
records whether we are inside a run that has already been replaced. -/
def collapseSeps : Bool → List Nat → List Nat
  | _, [] => []
  | inRun, c :: rest =>
    if isSepChar c then
      if inRun then collapseSeps true rest
      else 95 :: collapseSeps true rest
    else c :: collapseSeps false rest

/-- `text.strip('_')`: drop underscores from both ends. -/
def stripUnderscores (l : List Nat) : List Nat :=
  ((l.dropWhile (· == 95)).reverse.dropWhile (· == 95)).reverse

/-- `slugify` from design.py: lower-case, drop characters outside
`[\w\s-]`, collapse `[\s_-]+` runs to `_`, strip `_` from the ends. -/
def slugify (text : List Nat) : List Nat :=
  stripUnderscores (collapseSeps false (keepWordSpaceHyphen (text.map pyLower)))

/-! ## `get_trending_topics` (design.py, lines 114-163)

The two pytrends calls are external; each is modelled by an
`Except String (List String)`: `.error` is a raised exception,
`.ok rows` the list of returned titles (a dataframe column). -/

/-- The hard-coded fallback list (design.py, lines 154-161), with
synthetic values `100 - i*10`. -/
def fallback_trends : List (String × Int) :=
  (["AI Generated Art", "Viral Memes 2024", "Trending Now", "Just Vibing", "No Cap"]).enum.map
    (fun it => (it.2, (100 : Int) - (it.1 : Int) * 10))

/-- `get_trending_topics`: try `trending_searches`; on an empty result
fall back to `realtime_trending_searches`; any exception from either
call is caught and answered with `fallback_trends`; both success paths
take `limit` rows and attach values `100 - i*5`; an empty realtime
result reaches the trailing `return []`. -/
def get_trending_topics (region timeframe : String) (limit : Nat)
    (trending_searches realtime_trending_searches : Except String (List String)) :
    List (String × Int) :=
  match trending_searches with
  | .error _ => fallback_trends
  | .ok rows =>
    if rows.isEmpty then
      match realtime_trending_searches with
      | .error _ => fallback_trends
      | .ok rows2 =>
        if rows2.isEmpty then []
        else (rows2.take limit).enum.map (fun it => (it.2, (100 : Int) - (it.1 : Int) * 5))
    else (rows.take limit).enum.map (fun it => (it.2, (100 : Int) - (it.1 : Int) * 5))

/-! ## Bitmaps and `resize_for_print` (design.py, lines 257-298) -/

/-- One pixel: red, green, blue, alpha. -/
structure Pixel where
  r : Nat
  g : Nat
  b : Nat
  a : Nat
deriving DecidableEq

/-- The fully transparent pixel `(0, 0, 0, 0)`. -/
def transparentPixel : Pixel := ⟨0, 0, 0, 0⟩

/-- A PIL bitmap: dimensions, mode string, total pixel function. -/
structure Img where
  width : Nat
  height : Nat
  mode : String
  px : Nat → Nat → Pixel

/-- `TSHIRT_WIDTH` (design.py, line 52). -/
def TSHIRT_WIDTH : Nat := 4500

/-- `TSHIRT_HEIGHT` (design.py, line 53). -/
def TSHIRT_HEIGHT : Nat := 5400

/-- The scaling step of `resize_for_print` (design.py, lines 268-279):
aspect ratios compared exactly over `ℚ`; `int(...)` of a non-negative
quotient is the floor. -/
def scaledDims (w h W H : Nat) : Nat × Nat :=
  let img_ratio : ℚ := (w : ℚ) / (h : ℚ)
  let target_ratio : ℚ := (W : ℚ) / (H : ℚ)
  if target_ratio < img_ratio then
    (W, (⌊(W : ℚ) / img_ratio⌋).toNat)
  else
    ((⌊(H : ℚ) * img_ratio⌋).toNat, H)

/-- The horizontal paste offset `x = (width - new_width) // 2`
(design.py, line 288). -/
def pasteX (w h W H : Nat) : Nat :=
  (W - (scaledDims w h W H).1) / 2

/-- The vertical paste offset `y = (height - new_height) // 2`
(design.py, line 289). -/
def pasteY (w h W H : Nat) : Nat :=
  (H - (scaledDims w h W H).2) / 2

/-- `image.resize((nw, nh), LANCZOS)`: returns a bitmap of exactly the
requested dimensions, same mode, with pixels given by the external
resampling kernel `resample`. -/
def resizeTo (resample : Img → Nat → Nat → Nat → Nat → Pixel)
    (image : Img) (nw nh : Nat) : Img :=
  { width := nw, height := nh, mode := image.mode,
    px := fun p q => resample image nw nh p q }

/-- `canvas.paste(src, (x, y))` / `canvas.paste(src, (x, y), mask)`:
pixels inside the pasted box are produced by the compositing rule
`combine` (opaque copy or alpha blend, both external); pixels outside
the box are left unchanged. -/
def pasteBox (canvas src : Img) (x y : Nat) (combine : Pixel → Pixel → Pixel) : Img :=
  { canvas with
    px := fun p q =>
      if x ≤ p ∧ p < x + src.width ∧ y ≤ q ∧ q < y + src.height then
        combine (src.px (p - x) (q - y)) (canvas.px p q)
      else canvas.px p q }

/-- `resize_for_print` (design.py, lines 257-298): scale preserving the
aspect ratio, allocate a fully transparent RGBA canvas of the target
dimensions, paste the scaled image centered (with the scaled image
itself as mask when it is RGBA). -/
def resize_for_print (resample : Img → Nat → Nat → Nat → Nat → Pixel)
    (maskCombine opaqueCombine : Pixel → Pixel → Pixel)
    (image : Img) (width height : Nat) : Img :=
  let dims := scaledDims image.width image.height width height
  let resized := resizeTo resample image dims.1 dims.2
  let canvas : Img :=
    { width := width, height := height, mode := "RGBA", px := fun _ _ => transparentPixel }
  let x := pasteX image.width image.height width height
  let y := pasteY image.width image.height width height
  if resized.mode = "RGBA" then pasteBox canvas resized x y maskCombine
  else pasteBox canvas resized x y opaqueCombine

/-- `image.convert('RGBA')` (design.py, line 337): mode becomes RGBA,
colour channels kept, alpha filled with 255. -/
def convertRGBA (image : Img) : Img :=
  { width := image.width, height := image.height, mode := "RGBA",
    px := fun p q =>
      { r := (image.px p q).r, g := (image.px p q).g, b := (image.px p q).b, a := 255 } }

/-! ## `generate_design` (design.py, lines 182-232)

The remote `text_to_image` call is external: `outcomes k` is the
result of the call made on attempt `k` (0-based) — either a generated
image or the message of the raised exception.  The function returns
the Python return value together with the trace of `time.sleep`
durations, in order. -/

/-- Result of one remote generation attempt. -/
inductive GenOutcome where
  | ok (image : Img)
  | err (msg : String)

/-- The four classes of the error-message classifier. -/
inductive ErrClass where
  | unavailable
  | rateLimited
  | unauthorizedErr
  | other
deriving DecidableEq

/-- Does `pat` occur at the head of the list? -/
def leadMatch : List Char → List Char → Bool
  | [], _ => true
  | _ :: _, [] => false
  | a :: pa, b :: sb => a == b && leadMatch pa sb

/-- Does `pat` occur anywhere in the list (Python's `in` on strings)? -/
def occursIn (pat : List Char) : List Char → Bool
  | [] => pat.isEmpty
  | c :: rest => leadMatch pat (c :: rest) || occursIn pat rest

/-- Python `pat in s` for strings. -/
def strContains (s pat : String) : Bool :=
  occursIn pat.toList s.toList

/-- Python `s.lower()` (ASCII, matching `Char.toLower`). -/
def strLower (s : String) : String :=
  String.mk (s.toList.map Char.toLower)

/-- The classifier chain of `generate_design`'s `except` block
(design.py, lines 211-229), in source order: 503 / Service
Unavailable, then 429 / rate limit, then 401 / unauthorized, then
everything else. -/
def classifyError (error_msg : String) : ErrClass :=
  if strContains error_msg "503" || strContains error_msg "Service Unavailable" then
    ErrClass.unavailable
  else if strContains error_msg "429" || strContains (strLower error_msg) "rate limit" then
    ErrClass.rateLimited
  else if strContains error_msg "401" || strContains (strLower error_msg) "unauthorized" then
    ErrClass.unauthorizedErr
  else
    ErrClass.other

/-- The `for attempt in range(retries)` loop of `generate_design`:
`fuel` is the number of loop iterations left, `attempt` the current
0-based index.  A 503-class failure sleeps `60 * (attempt + 1)`, a
rate-limit-class failure sleeps `60`, a 401-class failure returns
`None` at once, any other failure sleeps `10` only when
`attempt < retries - 1`; a successful call returns the image.  When
the loop is exhausted the function returns `None`. -/
def generate_design_loop (outcomes : Nat → GenOutcome) (retries : Nat) :
    Nat → Nat → Option Img × List Nat
  | 0, _ => (none, [])
  | fuel + 1, attempt =>
    match outcomes attempt with
    | .ok image => (some image, [])
    | .err msg =>
      match classifyError msg with
      | .unavailable =>
        let rest := generate_design_loop outcomes retries fuel (attempt + 1)
        (rest.1, 60 * (attempt + 1) :: rest.2)
      | .rateLimited =>
        let rest := generate_design_loop outcomes retries fuel (attempt + 1)
        (rest.1, 60 :: rest.2)
      | .unauthorizedErr => (none, [])
      | .other =>
        if attempt < retries - 1 then
          let rest := generate_design_loop outcomes retries fuel (attempt + 1)
          (rest.1, 10 :: rest.2)
        else
          generate_design_loop outcomes retries fuel (attempt + 1)

/-- `generate_design` (the default of `retries` in the source is 3):
returns the Python result paired with the trace of sleeps. -/
def generate_design (outcomes : Nat → GenOutcome) (retries : Nat) : Option Img × List Nat :=
  generate_design_loop outcomes retries retries 0

/-! ## `process_trend` (design.py, lines 301-351)

`genResult` is the value returned by the `generate_design` call,
`removeBgFn` the external `remove_background` step (`.error` models a
raised exception), `timestamp` the formatted `datetime.now()` string.
The trend and the produced file name are code-point lists (so that the
`slugify` model applies); the function returns `None` exactly when the
Python function returns `None`, and otherwise the pair of the output
file name and the saved bitmap. -/

/-- The code points of `".png"`. -/
def pngSuffix : List Nat := [46, 112, 110, 103]

/-- `process_trend`: on a failed generation return `None`; otherwise
optionally remove the background (a raised exception is caught and the
unmodified image is kept), optionally convert to RGBA and resize for
print, and save under `{slug}_{timestamp}.png`. -/
def process_trend (resample : Img → Nat → Nat → Nat → Nat → Pixel)
    (maskCombine opaqueCombine : Pixel → Pixel → Pixel)
    (trend : List Nat) (remove_bg resize : Bool)
    (genResult : Option Img) (removeBgFn : Img → Except String Img)
    (timestamp : List Nat) : Option (List Nat × Img) :=
  match genResult with
  | none => none
  | some image0 =>
    let image1 :=
      if remove_bg then
        match removeBgFn image0 with
        | .ok cleaned => cleaned
        | .error _ => image0
      else image0
    let image2 :=
      if resize then
        resize_for_print resample maskCombine opaqueCombine
          (if image1.mode = "RGBA" then image1 else convertRGBA image1)
          TSHIRT_WIDTH TSHIRT_HEIGHT
      else image1
    some (slugify trend ++ [95] ++ timestamp ++ pngSuffix, image2)

/-! ## `PrintfulUploader.create_product` (printful_uploader.py, lines 117-195) -/

/-- The `VARIANTS["unisex_tshirt"]` table (printful_uploader.py,
lines 47-53): twelve size/colour variants in insertion order. -/
def VARIANTS_unisex_tshirt : List (String × Nat) :=
  [("S_Black", 4012), ("M_Black", 4013), ("L_Black", 4014), ("XL_Black", 4015),
   ("S_White", 4017), ("M_White", 4018), ("L_White", 4019), ("XL_White", 4020),
   ("S_Navy", 4022), ("M_Navy", 4023), ("L_Navy", 4024), ("XL_Navy", 4025)]

/-- The variant dictionary: a single key, `"unisex_tshirt"`. -/
def VARIANTS : List (String × List (String × Nat)) :=
  [("unisex_tshirt", VARIANTS_unisex_tshirt)]

/-- `self.VARIANTS.get(product_type, self.VARIANTS["unisex_tshirt"])`. -/
def variantsFor (product_type : String) : List (String × Nat) :=
  match VARIANTS.lookup product_type with
  | some table => table
  | none => VARIANTS_unisex_tshirt

/-- One entry of a sync variant's `files` list, with the fixed print
area placement (printful_uploader.py, lines 157-169). -/
structure FilePlacement where
  ftype : String
  id : Nat
  area_width : Nat
  area_height : Nat
  width : Nat
  height : Nat
  top : Nat
  left : Nat
deriving DecidableEq

/-- One element of the `sync_variants` payload list. -/
structure SyncVariant where
  variant_id : Nat
  files : List FilePlacement
  retail_price : String
deriving DecidableEq

/-- The `sync_variants` list built by `create_product`
(printful_uploader.py, lines 152-172): the variant table for the
chosen product type, truncated to the first 8 entries
(`list(variants.items())[:8]`), each carrying the front placement and
the retail price string (`str(price)` is passed in already
formatted). -/
def sync_variants (product_type : String) (file_id : Nat) (price : String) :
    List SyncVariant :=
  ((variantsFor product_type).take 8).map
    (fun v => { variant_id := v.2,
                files := [{ ftype := "front", id := file_id,
                            area_width := 1800, area_height := 2400,
                            width := 1800, height := 2400, top := 0, left := 0 }],
                retail_price := price })

/-! ## Proof infrastructure (not part of the source model) -/

/-- The head of the list, if any, falsifies `p`. -/
def headNot (p : Nat → Bool) : List Nat → Prop
  | [] => True
  | c :: _ => p c = false

/-- No two adjacent elements are both separator characters. -/
def NoAdj (l : List Nat) : Prop :=
  List.Chain' (fun a b => isSepChar a = false ∨ isSepChar b = false) l

end TrendMerch

namespace TrendMerch

/-! ## Theorems -/

/-- C10: the `sync_variants` payload built by `create_product` holds at
most 8 entries for every product type and price, although the (only)
variant table, `VARIANTS["unisex_tshirt"]`, defines 12 variants. -/
theorem create_product_variant_cap (product_type : String) (file_id : Nat) (price : String) :
    (sync_variants product_type file_id price).length ≤ 8
    ∧ VARIANTS_unisex_tshirt.length = 12 := by
  constructor
  · simp only [sync_variants, List.length_map, List.length_take]
    omega
  · rfl

/-- C7: whenever the trend fetch raises an exception — from the primary
`trending_searches` call, or from the `realtime_trending_searches`
fallback call — `get_trending_topics` returns exactly the five
hard-coded fallback topics with values 100, 90, 80, 70, 60, for every
region, timeframe and limit. -/
theorem get_trending_topics_fallback (region timeframe e1 e2 : String) (limit : Nat)
    (realtime : Except String (List String)) :
    get_trending_topics region timeframe limit (Except.error e1) realtime =
      [("AI Generated Art", 100), ("Viral Memes 2024", 90), ("Trending Now", 80),
       ("Just Vibing", 70), ("No Cap", 60)]
    ∧ get_trending_topics region timeframe limit (Except.ok []) (Except.error e2) =
      [("AI Generated Art", 100), ("Viral Memes 2024", 90), ("Trending Now", 80),
       ("Just Vibing", 70), ("No Cap", 60)] := by
  exact ⟨rfl, rfl⟩

/-- C5: `resize_for_print` pastes at offsets `x = (W - new_width) // 2`
and `y = (H - new_height) // 2` (integer floor division), so the left
and right paddings, and the top and bottom paddings, each differ by at
most one pixel. -/
theorem resize_for_print_centering (w h W H : Nat) :
    pasteX w h W H = (W - (scaledDims w h W H).1) / 2
    ∧ pasteY w h W H = (H - (scaledDims w h W H).2) / 2
    ∧ W - (scaledDims w h W H).1 - pasteX w h W H ≤ pasteX w h W H + 1
    ∧ pasteX w h W H ≤ (W - (scaledDims w h W H).1 - pasteX w h W H) + 1
    ∧ H - (scaledDims w h W H).2 - pasteY w h W H ≤ pasteY w h W H + 1
    ∧ pasteY w h W H ≤ (H - (scaledDims w h W H).2 - pasteY w h W H) + 1 := by
  refine ⟨rfl, rfl, ?_, ?_, ?_, ?_⟩ <;> (simp only [pasteX, pasteY]; omega)

/-- C3: for every input bitmap, the bitmap returned by
`resize_for_print` has exactly the target dimensions, is in RGBA mode,
and every pixel outside the pasted scaled content is the fully
transparent pixel. -/
theorem resize_for_print_canvas_invariant (resample : Img → Nat → Nat → Nat → Nat → Pixel)
    (maskCombine opaqueCombine : Pixel → Pixel → Pixel) (image : Img) (width height : Nat) :
    (resize_for_print resample maskCombine opaqueCombine image width height).width = width
    ∧ (resize_for_print resample maskCombine opaqueCombine image width height).height = height
    ∧ (resize_for_print resample maskCombine opaqueCombine image width height).mode = "RGBA"
    ∧ ∀ p q,
        (p < pasteX image.width image.height width height
          ∨ pasteX image.width image.height width height
              + (scaledDims image.width image.height width height).1 ≤ p
          ∨ q < pasteY image.width image.height width height
          ∨ pasteY image.width image.height width height
              + (scaledDims image.width image.height width height).2 ≤ q) →
        (resize_for_print resample maskCombine opaqueCombine image width height).px p q
          = transparentPixel := by
  unfold resize_for_print resizeTo pasteBox
  dsimp only
  split
  all_goals refine ⟨rfl, rfl, rfl, ?_⟩
  all_goals intro p q hout
  all_goals dsimp only
  all_goals rw [if_neg]
  all_goals omega

/-- C3 witness: a 1-by-1 source against the default target; the pixel
at the origin lies above the pasted box and is transparent. -/
theorem resize_for_print_canvas_invariant_witness :
    (resize_for_print (fun _ _ _ _ _ => transparentPixel) (fun a _ => a) (fun a _ => a)
        (Img.mk 1 1 "RGB" fun _ _ => transparentPixel) 4500 5400).px 0 0
      = transparentPixel :=
  (resize_for_print_canvas_invariant (fun _ _ _ _ _ => transparentPixel)
      (fun a _ => a) (fun a _ => a)
      (Img.mk 1 1 "RGB" fun _ _ => transparentPixel) 4500 5400).2.2.2 0 0
    (Or.inr (Or.inr (Or.inl (by unfold pasteY scaledDims; norm_num; decide))))

/-- C6: when the scaled width or the scaled height computed by
`resize_for_print` is zero (degenerate source aspect ratio), the paste
box is empty and the returned canvas of target dimensions is fully
transparent everywhere; the embedding is total, so no error occurs. -/
theorem resize_for_print_degenerate_noop (resample : Img → Nat → Nat → Nat → Nat → Pixel)
    (maskCombine opaqueCombine : Pixel → Pixel → Pixel) (image : Img) (width height : Nat)
    (hdeg : (scaledDims image.width image.height width height).1 = 0
          ∨ (scaledDims image.width image.height width height).2 = 0) :
    (resize_for_print resample maskCombine opaqueCombine image width height).width = width
    ∧ (resize_for_print resample maskCombine opaqueCombine image width height).height = height
    ∧ ∀ p q,
        (resize_for_print resample maskCombine opaqueCombine image width height).px p q
          = transparentPixel := by
  unfold resize_for_print resizeTo pasteBox
  dsimp only
  split
  all_goals refine ⟨rfl, rfl, ?_⟩
  all_goals intro p q
  all_goals dsimp only
  all_goals rw [if_neg]
  all_goals omega

/-- C6 witness: a 5000-by-1 source against the default 4500-by-5400
target scales to height 0, and the output canvas is fully
transparent. -/
theorem resize_for_print_degenerate_noop_witness :
    ((scaledDims (Img.mk 5000 1 "RGB" fun _ _ => transparentPixel).width
        (Img.mk 5000 1 "RGB" fun _ _ => transparentPixel).height 4500 5400).1 = 0
      ∨ (scaledDims (Img.mk 5000 1 "RGB" fun _ _ => transparentPixel).width
        (Img.mk 5000 1 "RGB" fun _ _ => transparentPixel).height 4500 5400).2 = 0)
    ∧ ((resize_for_print (fun _ _ _ _ _ => transparentPixel) (fun a _ => a) (fun a _ => a)
          (Img.mk 5000 1 "RGB" fun _ _ => transparentPixel) 4500 5400).width = 4500
      ∧ (resize_for_print (fun _ _ _ _ _ => transparentPixel) (fun a _ => a) (fun a _ => a)
          (Img.mk 5000 1 "RGB" fun _ _ => transparentPixel) 4500 5400).height = 5400
      ∧ ∀ p q,
          (resize_for_print (fun _ _ _ _ _ => transparentPixel) (fun a _ => a) (fun a _ => a)
            (Img.mk 5000 1 "RGB" fun _ _ => transparentPixel) 4500 5400).px p q
            = transparentPixel) :=
  ⟨Or.inr (by unfold scaledDims; norm_num),
   resize_for_print_degenerate_noop (fun _ _ _ _ _ => transparentPixel)
     (fun a _ => a) (fun a _ => a) (Img.mk 5000 1 "RGB" fun _ _ => transparentPixel) 4500 5400
     (Or.inr (by unfold scaledDims; norm_num))⟩

/-- In the wider-source branch the scaled height is bounded by the
target height. -/
theorem scaledDims_snd_le (w h W H : Nat) (hw : 0 < w) (hh : 0 < h) (hH : 0 < H)
    (hc : (W : ℚ) / (H : ℚ) < (w : ℚ) / (h : ℚ)) :
    (⌊(W : ℚ) / ((w : ℚ) / (h : ℚ))⌋).toNat ≤ H := by
  have hw' : (0 : ℚ) < (w : ℚ) := by exact_mod_cast hw
  have hh' : (0 : ℚ) < (h : ℚ) := by exact_mod_cast hh
  have hH' : (0 : ℚ) < (H : ℚ) := by exact_mod_cast hH
  have hcross : (W : ℚ) * h < (w : ℚ) * H := (div_lt_div_iff₀ hH' hh').mp hc
  have hq : (W : ℚ) / ((w : ℚ) / (h : ℚ)) = (W : ℚ) * h / w := by
    rw [div_div_eq_mul_div]
  have hlt : (W : ℚ) / ((w : ℚ) / (h : ℚ)) < (H : ℚ) := by
    rw [hq, div_lt_iff₀ hw']
    nlinarith
  rw [Int.toNat_le]
  calc ⌊(W : ℚ) / ((w : ℚ) / (h : ℚ))⌋ ≤ ⌊(H : ℚ)⌋ := Int.floor_le_floor (le_of_lt hlt)
    _ = (H : ℤ) := Int.floor_natCast H

/-- In the taller-source branch the scaled width is bounded by the
target width. -/
theorem scaledDims_fst_le (w h W H : Nat) (hh : 0 < h) (hH : 0 < H)
    (hc : ¬ (W : ℚ) / (H : ℚ) < (w : ℚ) / (h : ℚ)) :
    (⌊(H : ℚ) * ((w : ℚ) / (h : ℚ))⌋).toNat ≤ W := by
  have hH' : (0 : ℚ) < (H : ℚ) := by exact_mod_cast hH
  have hle : (w : ℚ) / (h : ℚ) ≤ (W : ℚ) / (H : ℚ) := not_lt.mp hc
  have hmul : (H : ℚ) * ((w : ℚ) / (h : ℚ)) ≤ (H : ℚ) * ((W : ℚ) / (H : ℚ)) :=
    mul_le_mul_of_nonneg_left hle (le_of_lt hH')
  have hcancel : (H : ℚ) * ((W : ℚ) / (H : ℚ)) = (W : ℚ) := by
    field_simp
  rw [Int.toNat_le]
  calc ⌊(H : ℚ) * ((w : ℚ) / (h : ℚ))⌋ ≤ ⌊(W : ℚ)⌋ :=
        Int.floor_le_floor (le_trans hmul (le_of_eq hcancel))
    _ = (W : ℤ) := Int.floor_natCast W

/-- C2 (amended): the scaling step of `resize_for_print`: when the
source ratio exceeds the target ratio the scaled width is the target
width and the scaled height is the floor (Python `int` truncation, not
rounding to nearest) of `target_width / source_ratio`, which is at
most the target height; otherwise the scaled height is the target
height and the scaled width is the floor of
`target_height * source_ratio`, at most the target width. -/
theorem scaledDims_branch_formulas (w h W H : Nat)
    (hw : 0 < w) (hh : 0 < h) (hW : 0 < W) (hH : 0 < H) :
    ((W : ℚ) / (H : ℚ) < (w : ℚ) / (h : ℚ) →
      (scaledDims w h W H).1 = W
      ∧ (scaledDims w h W H).2 = (⌊(W : ℚ) / ((w : ℚ) / (h : ℚ))⌋).toNat
      ∧ (scaledDims w h W H).2 ≤ H)
    ∧ (¬ (W : ℚ) / (H : ℚ) < (w : ℚ) / (h : ℚ) →
      (scaledDims w h W H).2 = H
      ∧ (scaledDims w h W H).1 = (⌊(H : ℚ) * ((w : ℚ) / (h : ℚ))⌋).toNat
      ∧ (scaledDims w h W H).1 ≤ W) := by
  constructor
  · intro hc
    have hval : scaledDims w h W H = (W, (⌊(W : ℚ) / ((w : ℚ) / (h : ℚ))⌋).toNat) := by
      unfold scaledDims
      rw [if_pos hc]
    rw [hval]
    exact ⟨rfl, rfl, scaledDims_snd_le w h W H hw hh hH hc⟩
  · intro hc
    have hval : scaledDims w h W H = ((⌊(H : ℚ) * ((w : ℚ) / (h : ℚ))⌋).toNat, H) := by
      unfold scaledDims
      rw [if_neg hc]
    rw [hval]
    exact ⟨rfl, rfl, scaledDims_fst_le w h W H hh hH hc⟩

/-- C2 witness: a 1000-by-999 source against the default 4500-by-5400
target falls in the wider-source branch. -/
theorem scaledDims_branch_formulas_witness :
    (scaledDims 1000 999 4500 5400).1 = 4500
    ∧ (scaledDims 1000 999 4500 5400).2
        = (⌊(4500 : ℚ) / ((1000 : ℚ) / (999 : ℚ))⌋).toNat
    ∧ (scaledDims 1000 999 4500 5400).2 ≤ 5400 :=
  (scaledDims_branch_formulas 1000 999 4500 5400
    (by norm_num) (by norm_num) (by norm_num) (by norm_num)).1 (by norm_num)

/-- C2 counterexample: for a 1000-by-999 source and the default
4500-by-5400 target, the code computes scaled height
`int(4500 / (1000/999)) = int(4495.5) = 4495`, while the claimed
formula `round(target_width / source_ratio)` gives 4496: the claim's
"round" is wrong, the operation is truncation (floor). -/
theorem scaledDims_round_cex :
    ((4500 : ℚ) / (5400 : ℚ) < (1000 : ℚ) / (999 : ℚ))
    ∧ (scaledDims 1000 999 4500 5400).2 = 4495
    ∧ (round ((4500 : ℚ) / ((1000 : ℚ) / (999 : ℚ)))).toNat = 4496
    ∧ (scaledDims 1000 999 4500 5400).2
        ≠ (round ((4500 : ℚ) / ((1000 : ℚ) / (999 : ℚ)))).toNat := by
  have h2 : (scaledDims 1000 999 4500 5400).2 = 4495 := by
    unfold scaledDims
    norm_num
    rfl
  have h3 : (round ((4500 : ℚ) / ((1000 : ℚ) / (999 : ℚ)))).toNat = 4496 := by
    rw [round_eq]
    norm_num
    rfl
  exact ⟨by norm_num, h2, h3, by rw [h2, h3]; omega⟩

/-- C1 (amended): the retry policy of `generate_design`, stated for
one iteration of the attempt loop and for a run of all-failing
attempts.  A failure classified as service-unavailable on (0-based)
attempt `k` records a sleep of `60 * (k + 1)` seconds; a failure
classified as rate-limited records a fixed 60-second sleep; a failure
in the residual class records a 10-second sleep exactly when attempts
remain (`k < N - 1`) and no sleep otherwise; each failure consumes one
attempt, and when all `N` attempts fail with no 401-class failure the
function returns `None`. -/
theorem generate_design_retry_policy (outcomes : Nat → GenOutcome) (N fuel k : Nat)
    (m : String) (hout : outcomes k = GenOutcome.err m) :
    (classifyError m = ErrClass.unavailable →
      generate_design_loop outcomes N (fuel + 1) k
        = ((generate_design_loop outcomes N fuel (k + 1)).1,
           60 * (k + 1) :: (generate_design_loop outcomes N fuel (k + 1)).2))
    ∧ (classifyError m = ErrClass.rateLimited →
      generate_design_loop outcomes N (fuel + 1) k
        = ((generate_design_loop outcomes N fuel (k + 1)).1,
           60 :: (generate_design_loop outcomes N fuel (k + 1)).2))
    ∧ (classifyError m = ErrClass.other → k < N - 1 →
      generate_design_loop outcomes N (fuel + 1) k
        = ((generate_design_loop outcomes N fuel (k + 1)).1,
           10 :: (generate_design_loop outcomes N fuel (k + 1)).2))
    ∧ (classifyError m = ErrClass.other → ¬ k < N - 1 →
      generate_design_loop outcomes N (fuel + 1) k
        = generate_design_loop outcomes N fuel (k + 1))
    ∧ ((∀ j, j < N →
          ∃ mj, outcomes j = GenOutcome.err mj ∧ classifyError mj ≠ ErrClass.unauthorizedErr) →
      (generate_design outcomes N).1 = none) := by
  have hall : ∀ fuel2 k2,
      (∀ j, k2 ≤ j → j < k2 + fuel2 →
        ∃ mj, outcomes j = GenOutcome.err mj ∧ classifyError mj ≠ ErrClass.unauthorizedErr) →
      (generate_design_loop outcomes N fuel2 k2).1 = none := by
    intro fuel2
    induction fuel2 with
    | zero => intro k2 _; rfl
    | succ n ih =>
      intro k2 hfail
      obtain ⟨mj, hmj, hmjc⟩ := hfail k2 (le_refl k2) (by omega)
      have hrest : ∀ j, k2 + 1 ≤ j → j < (k2 + 1) + n →
          ∃ mj, outcomes j = GenOutcome.err mj ∧ classifyError mj ≠ ErrClass.unauthorizedErr :=
        fun j h1 h2 => hfail j (by omega) (by omega)
      cases hc : classifyError mj with
      | unavailable => simp [generate_design_loop, hmj, hc, ih (k2 + 1) hrest]
      | rateLimited => simp [generate_design_loop, hmj, hc, ih (k2 + 1) hrest]
      | unauthorizedErr => exact absurd hc hmjc
      | other =>
        by_cases hk : k2 < N - 1
        · simp [generate_design_loop, hmj, hc, hk, ih (k2 + 1) hrest]
        · simp [generate_design_loop, hmj, hc, hk, ih (k2 + 1) hrest]
  refine ⟨?_, ?_, ?_, ?_, ?_⟩
  · intro hc
    simp [generate_design_loop, hout, hc]
  · intro hc
    simp [generate_design_loop, hout, hc]
  · intro hc hk
    simp [generate_design_loop, hout, hc, hk]
  · intro hc hk
    simp [generate_design_loop, hout, hc, hk]
  · intro hfail
    unfold generate_design
    exact hall N 0 (fun j h1 h2 => hfail j (by omega))

/-- C1 witness: a constant 503 failure at attempt 0 with 3 retries. -/
theorem generate_design_retry_policy_witness :
    generate_design_loop (fun _ => GenOutcome.err "503") 3 3 0
      = ((generate_design_loop (fun _ => GenOutcome.err "503") 3 2 1).1,
         60 :: (generate_design_loop (fun _ => GenOutcome.err "503") 3 2 1).2) :=
  ((generate_design_retry_policy (fun _ => GenOutcome.err "503") 3 2 0 "503" rfl).1
    (by decide))

/-- C1 counterexample: the message `"503 rate limit"` is a rate-limit
failure in the claim's sense (its lower-cased text contains
`"rate limit"`), but on the second attempt (0-based index 1) the code
sleeps `60 * 2 = 120` seconds, not the claimed fixed 60: the 503 check
runs first.  A full run sleeps 60, 120, 180. -/
theorem generate_design_rate_limit_cex :
    strContains (strLower "503 rate limit") "rate limit" = true
    ∧ (generate_design_loop (fun _ => GenOutcome.err "503 rate limit") 3 2 1).2.head? = some 120
    ∧ (generate_design (fun _ => GenOutcome.err "503 rate limit") 3).2 = [60, 120, 180]
    ∧ (120 : Nat) ≠ 60 := by
  exact ⟨by decide, rfl, rfl, by decide⟩

/-- C4 (amended): a failure whose message the classifier chain assigns
to the unauthorized class (it contains `"401"` or, lower-cased,
`"unauthorized"`, and matches neither the 503 check nor the 429 check,
which run first) makes `generate_design` return `None` at once: no
sleep is recorded and no further attempt is made, regardless of the
remaining fuel. -/
theorem generate_design_unauthorized_aborts (outcomes : Nat → GenOutcome) (N fuel k : Nat)
    (m : String) (hout : outcomes k = GenOutcome.err m)
    (hc : classifyError m = ErrClass.unauthorizedErr) :
    generate_design_loop outcomes N (fuel + 1) k = (none, []) := by
  simp [generate_design_loop, hout, hc]

/-- C4 witness: a constant 401 failure with 3 retries aborts at
attempt 0. -/
theorem generate_design_unauthorized_aborts_witness :
    generate_design_loop (fun _ => GenOutcome.err "401") 3 3 0 = (none, []) :=
  generate_design_unauthorized_aborts (fun _ => GenOutcome.err "401") 3 2 0 "401" rfl (by decide)

/-- C4 counterexample: the message `"503 unauthorized"` indicates a
401-class error in the claim's sense (its lower-cased text contains
`"unauthorized"`), yet the function does not fail immediately: it
sleeps 60 seconds (the 503 check runs first), makes a further attempt,
and that attempt's success is returned. -/
theorem generate_design_unauthorized_cex :
    strContains (strLower "503 unauthorized") "unauthorized" = true
    ∧ (generate_design
        (fun k => if k == 0 then GenOutcome.err "503 unauthorized"
                  else GenOutcome.ok (Img.mk 1 1 "RGB" fun _ _ => transparentPixel)) 3).2 = [60]
    ∧ (generate_design
        (fun k => if k == 0 then GenOutcome.err "503 unauthorized"
                  else GenOutcome.ok (Img.mk 1 1 "RGB" fun _ _ => transparentPixel)) 3).1.isSome
        = true := by
  exact ⟨by decide, rfl, rfl⟩

/-- C8: in `process_trend` with background removal enabled, a raised
exception from the background-removal step is caught and the pipeline
continues with the unmodified generated image, which is still
converted, resized for print and saved; the item is never aborted (the
result is not `None`). -/
theorem process_trend_bg_failure_continues (resample : Img → Nat → Nat → Nat → Nat → Pixel)
    (maskCombine opaqueCombine : Pixel → Pixel → Pixel)
    (trend timestamp : List Nat) (image : Img)
    (removeBgFn : Img → Except String Img) (e : String)
    (hfail : removeBgFn image = Except.error e) :
    process_trend resample maskCombine opaqueCombine trend true true
        (some image) removeBgFn timestamp
      = some (slugify trend ++ [95] ++ timestamp ++ pngSuffix,
          resize_for_print resample maskCombine opaqueCombine
            (if image.mode = "RGBA" then image else convertRGBA image)
            TSHIRT_WIDTH TSHIRT_HEIGHT)
    ∧ (process_trend resample maskCombine opaqueCombine trend true true
        (some image) removeBgFn timestamp).isSome = true := by
  unfold process_trend
  simp only [hfail]
  exact ⟨rfl, rfl⟩

/-- C8 witness: a concrete RGB image whose background removal raises. -/
theorem process_trend_bg_failure_continues_witness :
    ((fun _ : Img => (Except.error "rembg failed" : Except String Img))
        (Img.mk 2 3 "RGB" fun _ _ => transparentPixel) = Except.error "rembg failed")
    ∧ (process_trend (fun _ _ _ _ _ => transparentPixel) (fun a _ => a) (fun a _ => a)
        [97] true true (some (Img.mk 2 3 "RGB" fun _ _ => transparentPixel))
        (fun _ => Except.error "rembg failed") [48]).isSome = true :=
  ⟨rfl,
   (process_trend_bg_failure_continues (fun _ _ _ _ _ => transparentPixel)
     (fun a _ => a) (fun a _ => a) [97] [48]
     (Img.mk 2 3 "RGB" fun _ _ => transparentPixel)
     (fun _ => Except.error "rembg failed") "rembg failed" rfl).2⟩

/-! ### Lemmas towards the idempotence of `slugify` (C9) -/

/-- `pyLower` never produces an uppercase letter. -/
theorem pyLower_not_upper (c : Nat) : ¬(65 ≤ pyLower c ∧ pyLower c ≤ 90) := by
  unfold pyLower
  split <;> omega

/-- `pyLower` fixes anything that is not an uppercase letter. -/
theorem pyLower_fixed (c : Nat) (h : ¬(65 ≤ c ∧ c ≤ 90)) : pyLower c = c := by
  unfold pyLower
  rw [if_neg h]

/-- A map whose function fixes every member is the identity. -/
theorem map_id_of_mem (f : Nat → Nat) (l : List Nat) (h : ∀ c ∈ l, f c = c) :
    l.map f = l := by
  induction l with
  | nil => rfl
  | cons c r ih =>
    rw [List.map_cons, h c (List.mem_cons_self c r),
      ih (fun x hx => h x (List.mem_cons_of_mem c hx))]

/-- The head left by `dropWhile p`, if any, falsifies `p`. -/
theorem headNot_dropWhile (p : Nat → Bool) (l : List Nat) : headNot p (l.dropWhile p) := by
  induction l with
  | nil => exact trivial
  | cons c r ih =>
    rw [List.dropWhile_cons]
    cases hc : p c with
    | true => simpa [hc] using ih
    | false => simp [hc, headNot]

/-- `dropWhile p` is the identity when the head already falsifies `p`. -/
theorem dropWhile_eq_self_of_headNot (p : Nat → Bool) (l : List Nat) (h : headNot p l) :
    l.dropWhile p = l := by
  cases l with
  | nil => rfl
  | cons c r =>
    have hc : p c = false := h
    rw [List.dropWhile_cons]
    simp [hc]

/-- `headNot` through `head?`. -/
theorem headNot_iff_head? (p : Nat → Bool) (l : List Nat) :
    headNot p l ↔ ∀ c, l.head? = some c → p c = false := by
  cases l with
  | nil => simp [headNot]
  | cons c r => simp [headNot]

/-- Members of `stripUnderscores l` are members of `l`. -/
theorem mem_of_mem_stripUnderscores {l : List Nat} {c : Nat}
    (h : c ∈ stripUnderscores l) : c ∈ l := by
  unfold stripUnderscores at h
  rw [List.mem_reverse] at h
  have h1 := (List.dropWhile_suffix (· == 95)).sublist.subset h
  rw [List.mem_reverse] at h1
  exact (List.dropWhile_suffix (· == 95)).sublist.subset h1

/-- Every member of a `collapseSeps` output is the underscore or a
non-separator member of the input. -/
theorem mem_collapseSeps {b : Bool} {l : List Nat} {c : Nat} (h : c ∈ collapseSeps b l) :
    c = 95 ∨ (c ∈ l ∧ isSepChar c = false) := by
  induction l generalizing b with
  | nil => simp [collapseSeps] at h
  | cons d r ih =>
    cases hsep : isSepChar d with
    | true =>
      cases b with
      | true =>
        rw [show collapseSeps true (d :: r) = collapseSeps true r from by
          simp [collapseSeps, hsep]] at h
        rcases ih h with h1 | ⟨h2, h3⟩
        · exact Or.inl h1
        · exact Or.inr ⟨List.mem_cons_of_mem d h2, h3⟩
      | false =>
        rw [show collapseSeps false (d :: r) = 95 :: collapseSeps true r from by
          simp [collapseSeps, hsep]] at h
        rcases List.mem_cons.mp h with h1 | h1
        · exact Or.inl h1
        · rcases ih h1 with h2 | ⟨h2, h3⟩
          · exact Or.inl h2
          · exact Or.inr ⟨List.mem_cons_of_mem d h2, h3⟩
    | false =>
      rw [show collapseSeps b (d :: r) = d :: collapseSeps false r from by
        cases b <;> simp [collapseSeps, hsep]] at h
      rcases List.mem_cons.mp h with h1 | h1
      · subst h1
        exact Or.inr ⟨List.mem_cons_self _ _, hsep⟩
      · rcases ih h1 with h2 | ⟨h2, h3⟩
        · exact Or.inl h2
        · exact Or.inr ⟨List.mem_cons_of_mem d h2, h3⟩

/-- A `collapseSeps` output under the in-run flag never starts with a
separator. -/
theorem headNot_collapseSeps_true (l : List Nat) :
    headNot isSepChar (collapseSeps true l) := by
  induction l with
  | nil => exact trivial
  | cons c r ih =>
    cases hsep : isSepChar c with
    | true => simpa [collapseSeps, hsep] using ih
    | false => simp [collapseSeps, hsep, headNot]

/-- `collapseSeps` never leaves two adjacent separators. -/
theorem noAdj_collapseSeps (l : List Nat) : ∀ b, NoAdj (collapseSeps b l) := by
  induction l with
  | nil =>
    intro b
    exact List.chain'_nil
  | cons c r ih =>
    intro b
    cases hsep : isSepChar c with
    | true =>
      cases b with
      | true => simpa [collapseSeps, hsep] using ih true
      | false =>
        rw [show collapseSeps false (c :: r) = 95 :: collapseSeps true r from by
          simp [collapseSeps, hsep]]
        unfold NoAdj
        rw [List.chain'_cons']
        refine ⟨?_, ih true⟩
        intro y hy
        right
        cases hcl : collapseSeps true r with
        | nil => rw [hcl] at hy; simp at hy
        | cons d s =>
          rw [hcl] at hy
          have hyd : d = y := by simpa using hy
          have hhd := headNot_collapseSeps_true r
          rw [hcl] at hhd
          rw [← hyd]
          exact hhd
    | false =>
      rw [show collapseSeps b (c :: r) = c :: collapseSeps false r from by
        cases b <;> simp [collapseSeps, hsep]]
      unfold NoAdj
      rw [List.chain'_cons']
      exact ⟨fun y _ => Or.inl hsep, ih false⟩

/-- On a list whose separators are all the underscore, with no two
adjacent separators, `collapseSeps` is the identity (and also under
the in-run flag when the head is not a separator). -/
theorem collapseSeps_eq_self (l : List Nat)
    (h95 : ∀ c ∈ l, isSepChar c = true → c = 95) (hchain : NoAdj l) :
    collapseSeps false l = l ∧ (headNot isSepChar l → collapseSeps true l = l) := by
  induction l with
  | nil => exact ⟨rfl, fun _ => rfl⟩
  | cons c r ih =>
    have hc95 : isSepChar c = true → c = 95 := h95 c (List.mem_cons_self c r)
    have h95r : ∀ x ∈ r, isSepChar x = true → x = 95 :=
      fun x hx => h95 x (List.mem_cons_of_mem c hx)
    have hhead : ∀ y ∈ r.head?, (isSepChar c = false ∨ isSepChar y = false) :=
      (List.chain'_cons'.mp hchain).1
    have hchainr : NoAdj r := (List.chain'_cons'.mp hchain).2
    obtain ⟨ih1, ih2⟩ := ih h95r hchainr
    cases hsep : isSepChar c with
    | true =>
      have hc : c = 95 := hc95 hsep
      have hr : headNot isSepChar r := by
        cases r with
        | nil => exact trivial
        | cons d s =>
          rcases hhead d rfl with h1 | h2
          · rw [hsep] at h1
            exact absurd h1 (by simp)
          · exact h2
      constructor
      · rw [show collapseSeps false (c :: r) = 95 :: collapseSeps true r from by
          simp [collapseSeps, hsep]]
        rw [ih2 hr, hc]
      · intro habs
        have hfalse : isSepChar c = false := habs
        rw [hsep] at hfalse
        exact absurd hfalse (by simp)
    | false =>
      constructor
      · rw [show collapseSeps false (c :: r) = c :: collapseSeps false r from by
          simp [collapseSeps, hsep]]
        rw [ih1]
      · intro _
        rw [show collapseSeps true (c :: r) = c :: collapseSeps false r from by
          simp [collapseSeps, hsep]]
        rw [ih1]

/-- `stripUnderscores` leaves no leading underscore. -/
theorem headNot_stripUnderscores (l : List Nat) :
    headNot (· == 95) (stripUnderscores l) := by
  unfold stripUnderscores
  rw [headNot_iff_head?]
  intro c hc
  rw [List.head?_reverse] at hc
  obtain ⟨t, ht⟩ := List.dropWhile_suffix (l := (l.dropWhile (· == 95)).reverse) (· == 95)
  have hne : (l.dropWhile (· == 95)).reverse.dropWhile (· == 95) ≠ [] := by
    intro hnil
    rw [hnil] at hc
    simp at hc
  have hlast : (l.dropWhile (· == 95)).reverse.getLast? = some c := by
    rw [← ht, List.getLast?_append_of_ne_nil _ hne]
    exact hc
  rw [List.getLast?_reverse] at hlast
  have hh := headNot_dropWhile (· == 95) l
  rw [headNot_iff_head?] at hh
  exact hh c hlast

/-- `stripUnderscores` leaves no trailing underscore. -/
theorem lastNot_stripUnderscores (l : List Nat) :
    headNot (· == 95) (stripUnderscores l).reverse := by
  unfold stripUnderscores
  rw [List.reverse_reverse]
  exact headNot_dropWhile (· == 95) _

/-- `stripUnderscores` is the identity when neither end is an
underscore. -/
theorem stripUnderscores_eq_self (l : List Nat)
    (h1 : headNot (· == 95) l) (h2 : headNot (· == 95) l.reverse) :
    stripUnderscores l = l := by
  unfold stripUnderscores
  rw [dropWhile_eq_self_of_headNot _ _ h1, dropWhile_eq_self_of_headNot _ _ h2,
    List.reverse_reverse]

/-- `NoAdj` is stable under reversal. -/
theorem noAdj_reverse (l : List Nat) (h : NoAdj l) : NoAdj l.reverse := by
  unfold NoAdj at h ⊢
  rw [List.chain'_reverse]
  exact h.imp (fun a b hab => hab.symm)

/-- `NoAdj` is stable under `stripUnderscores`. -/
theorem noAdj_stripUnderscores (l : List Nat) (h : NoAdj l) :
    NoAdj (stripUnderscores l) := by
  unfold stripUnderscores
  apply noAdj_reverse
  have h1 : NoAdj (l.dropWhile (· == 95)) :=
    List.Chain'.suffix h (List.dropWhile_suffix _)
  have h2 := noAdj_reverse _ h1
  exact List.Chain'.suffix h2 (List.dropWhile_suffix _)

/-- Every character of a `slugify` output is a word character, is not
an uppercase letter, and is the underscore if it is a separator at
all. -/
theorem slugify_chars (s : List Nat) :
    ∀ c ∈ slugify s,
      isWordChar c = true ∧ ¬(65 ≤ c ∧ c ≤ 90) ∧ (isSepChar c = true → c = 95) := by
  intro c hc
  unfold slugify at hc
  have hc2 := mem_of_mem_stripUnderscores hc
  rcases mem_collapseSeps hc2 with h95 | ⟨hmem, hnsep⟩
  · subst h95
    exact ⟨by decide, by omega, fun _ => rfl⟩
  · unfold keepWordSpaceHyphen at hmem
    rw [List.mem_filter] at hmem
    obtain ⟨hmem2, hpred⟩ := hmem
    have hnup : ¬(65 ≤ c ∧ c ≤ 90) := by
      rw [List.mem_map] at hmem2
      obtain ⟨x, _, hx⟩ := hmem2
      rw [← hx]
      exact pyLower_not_upper x
    have hword : isWordChar c = true := by
      simp only [Bool.or_eq_true] at hpred
      rcases hpred with (h | h) | h
      · exact h
      · exfalso
        simp [isSepChar, h] at hnsep
      · exfalso
        simp [isSepChar, h] at hnsep
    refine ⟨hword, hnup, ?_⟩
    intro hsep
    rw [hsep] at hnsep
    exact absurd hnsep (by simp)

/-- A `slugify` output has no two adjacent separators. -/
theorem slugify_noAdj (s : List Nat) : NoAdj (slugify s) := by
  unfold slugify
  exact noAdj_stripUnderscores _ (noAdj_collapseSeps _ false)

/-- A `slugify` output does not start with an underscore. -/
theorem slugify_headNot95 (s : List Nat) : headNot (· == 95) (slugify s) :=
  headNot_stripUnderscores _

/-- A `slugify` output does not end with an underscore. -/
theorem slugify_lastNot95 (s : List Nat) : headNot (· == 95) (slugify s).reverse :=
  lastNot_stripUnderscores _

/-- C9: `slugify` is idempotent: slugifying a slug changes nothing. -/
theorem slugify_idempotent (s : List Nat) : slugify (slugify s) = slugify s := by
  have hchars := slugify_chars s
  have hmap : (slugify s).map pyLower = slugify s :=
    map_id_of_mem _ _ (fun c hc => pyLower_fixed c (hchars c hc).2.1)
  have hfilter : keepWordSpaceHyphen (slugify s) = slugify s := by
    unfold keepWordSpaceHyphen
    apply List.filter_eq_self.mpr
    intro c hc
    simp [(hchars c hc).1]
  have hcoll : collapseSeps false (slugify s) = slugify s :=
    (collapseSeps_eq_self (slugify s)
      (fun c hc hsep => (hchars c hc).2.2 hsep) (slugify_noAdj s)).1
  have hstrip : stripUnderscores (slugify s) = slugify s :=
    stripUnderscores_eq_self _ (slugify_headNot95 s) (slugify_lastNot95 s)
  show stripUnderscores (collapseSeps false (keepWordSpaceHyphen ((slugify s).map pyLower)))
    = slugify s
  rw [hmap, hfilter, hcoll, hstrip]

end TrendMerch
